import Mathlib

/-!
Shallow embedding of the single-page application in `src/src/App.tsx`
(a React component named `App`).  The component's pieces of state are
collected in `AppState`; each event handler of the source becomes a
state-transformer function.  Asynchronous browser results (device
acquisition, clipboard write) are passed in as explicit inputs, and the
clipboard "copied" mark with its timeout is given a small timed model.
-/

namespace SignApp

/-- One media track of an acquired stream.  `track.stop()` is modelled by
the `stopped` flag and `track.enabled = false` by the `enabled` flag. -/
structure MediaTrack where
  stopped : Bool
  enabled : Bool
deriving Repr, DecidableEq

/-- A media stream is its list of tracks. -/
abbrev MediaStream := List MediaTrack

/-- One conversion record, as built in `handleConvertToText`:
`{ id: Date.now(), text, timestamp }`. -/
structure ConversionRecord where
  id : Nat
  text : String
  timestamp : String
deriving Repr, DecidableEq

/-- The React state of `App` plus the two refs.  `docDark` mirrors the
`dark` class on `document.documentElement`. -/
structure AppState where
  isStreaming : Bool
  error : Option String
  conversions : List ConversionRecord
  copiedId : Option Nat
  isDarkMode : Bool
  docDark : Bool
  videoSrc : Option MediaStream
  streamRef : Option MediaStream
deriving Repr, DecidableEq

/-- The initial state produced by the `useState` initialisers. -/
def initialState : AppState :=
  { isStreaming := false, error := none, conversions := [], copiedId := none,
    isDarkMode := false, docDark := false, videoSrc := none, streamRef := none }

/-- The browser environment read by the mount effect. -/
structure Env where
  prefersDark : Bool
  protocol : String
  hostname : String

/-- The error message stored by the mount effect on an insecure host. -/
def secureContextError : String :=
  "Camera access requires HTTPS or localhost connection."

/-- The condition of the mount effect guard:
`window.location.protocol !== https: && window.location.hostname !== localhost`. -/
def isInsecure (env : Env) : Bool :=
  env.protocol != "https:" && env.hostname != "localhost"

/-- The `useEffect` run at mount: seed dark mode from the platform
preference, then store an error when the host is insecure. -/
def mountEffect (env : Env) (s : AppState) : AppState :=
  let s1 := if env.prefersDark then { s with isDarkMode := true, docDark := true } else s
  if isInsecure env then { s1 with error := some secureContextError } else s1

/-- `toggleDarkMode`: negate the flag and toggle the document class. -/
def toggleDarkMode (s : AppState) : AppState :=
  { s with isDarkMode := !s.isDarkMode, docDark := !s.docDark }

/-- The outcome of `navigator.mediaDevices.getUserMedia(constraints)`:
either a stream, or a rejection carrying whether the thrown value was an
`Error` instance and, when it was, its `message`. -/
inductive AcqResult where
  | success (stream : MediaStream)
  | failure (isError : Bool) (message : String)
deriving Repr, DecidableEq

/-- The fallback message used when the thrown value is not an `Error`. -/
def deniedMessage : String :=
  "Camera access denied. Please enable camera permissions."

/-- `startCamera`: the acquisition result and whether `videoRef.current`
is non-null are inputs.  The returned `Bool` records that the body
reached the `getUserMedia` call (it always does: the source has no guard
before it).  On success with the video element attached, the stream is
stored in both the element and the ref, streaming is marked active and
the error cleared; on success without the element nothing changes.  On
failure the caught error's message (or the fallback) is stored. -/
def startCamera (res : AcqResult) (videoAttached : Bool) (s : AppState) :
    AppState × Bool :=
  match res with
  | .success stream =>
      if videoAttached then
        ({ s with videoSrc := some stream, streamRef := some stream,
                  isStreaming := true, error := none }, true)
      else (s, true)
  | .failure isErr msg =>
      let errorMessage := if isErr then msg else deniedMessage
      ({ s with error := some errorMessage }, true)

/-- The effect of the loop body on one track: `track.stop()` then
`track.enabled = false`. -/
def stopTrack (_t : MediaTrack) : MediaTrack :=
  { stopped := true, enabled := false }

/-- `stopCamera`: a no-op when `streamRef.current` is null; otherwise
stop and disable every track, detach the stream from the video element
(when attached), clear the ref and the streaming flag.  The second
component returns the tracks as they are after the loop, for
observation; it is empty when nothing was released. -/
def stopCamera (videoAttached : Bool) (s : AppState) : AppState × List MediaTrack :=
  match s.streamRef with
  | none => (s, [])
  | some ts =>
      let s1 := if videoAttached then { s with videoSrc := none } else s
      ({ s1 with streamRef := none, isStreaming := false }, ts.map stopTrack)

/-- The hard-coded text of the simulated conversion. -/
def defaultConversionText : String := "Hello, how are you?"

/-- The object literal built in `handleConvertToText`, from the clock
reading and the display timestamp. -/
def convRecord (e : Nat × String) : ConversionRecord :=
  { id := e.1, text := defaultConversionText, timestamp := e.2 }

/-- `handleConvertToText`: build a record whose id is the current
`Date.now()` reading and whose timestamp is the current display time,
and cons it onto the list (`[newConversion, ...prev]`). -/
def handleConvertToText (now : Nat) (ts : String) (s : AppState) : AppState :=
  { s with conversions := convRecord (now, ts) :: s.conversions }

/-- A sequence of convert-to-text clicks, each with its clock reading
and display timestamp. -/
def runConversions (events : List (Nat × String)) (s : AppState) : AppState :=
  events.foldl (fun acc e => handleConvertToText e.1 e.2 acc) s

/-- `handleConvertToSpeech`: only a console line, no state change. -/
def handleConvertToSpeech (s : AppState) : AppState × String :=
  (s, "Converting to speech...")

/-- `clearConversions`: empty the list, touch nothing else. -/
def clearConversions (s : AppState) : AppState :=
  { s with conversions := [] }

/-- The clipboard-mark state: the `copiedId` cell together with the
absolute fire times of the pending `setTimeout` callbacks. -/
structure ClipState where
  copiedId : Option Nat
  timers : List Nat
deriving Repr, DecidableEq

/-- Fire every pending timeout due at or before time `t`.  Each callback
is `() => setCopiedId(null)`, unconditionally, so firing any number of
due timers clears the mark. -/
def fireDue (t : Nat) (c : ClipState) : ClipState :=
  if c.timers.any (fun ft => ft ≤ t) then
    { copiedId := none, timers := c.timers.filter (fun ft => t < ft) }
  else c

/-- `copyToClipboard` at time `t`: when the clipboard write succeeds,
set the mark to this id and schedule a clearing callback 2 time units
later; when it fails, only a console line is emitted. -/
def copyToClipboard (success : Bool) (t : Nat) (id : Nat) (c : ClipState) : ClipState :=
  if success then { copiedId := some id, timers := c.timers ++ [t + 2] } else c

/-- Run a timeline of successful copies, given as (time, id) pairs in
chronological order, firing due timeouts before each event. -/
def runCopies (events : List (Nat × Nat)) : ClipState :=
  events.foldl (fun c e => copyToClipboard true e.1 e.2 (fireDue e.1 c))
    { copiedId := none, timers := [] }

/-- The value of the mark observed at time `t`, after the timeline of
copies and every timeout due by `t`. -/
def markAt (events : List (Nat × Nat)) (t : Nat) : Option Nat :=
  (fireDue t (runCopies events)).copiedId

/-- A state with one active stream of one live track, used to
instantiate theorems about stopping an active session. -/
def activeSessionState : AppState :=
  { initialState with
      streamRef := some [{ stopped := false, enabled := true }],
      videoSrc := some [{ stopped := false, enabled := true }],
      isStreaming := true }

/-- Claim C1: when device acquisition succeeds (with the video element
attached, as it always is since the `video` tag is rendered
unconditionally), `startCamera` stores the stream handle in the ref and
the video element, marks streaming active, and clears any prior error. -/
theorem startCamera_success_stores_stream (stream : MediaStream) (s : AppState) :
    ((startCamera (.success stream) true s).1).streamRef = some stream ∧
    ((startCamera (.success stream) true s).1).videoSrc = some stream ∧
    ((startCamera (.success stream) true s).1).isStreaming = true ∧
    ((startCamera (.success stream) true s).1).error = none :=
  ⟨rfl, rfl, rfl, rfl⟩

/-- Claim C7: `stopCamera` with no active session is a no-op, applying it
twice gives the same state as applying it once, after stopping an active
session the streaming flag is false, and every released track is stopped
and disabled. -/
theorem stopCamera_props (v : Bool) (s : AppState) :
    (s.streamRef = none → stopCamera v s = (s, [])) ∧
    (stopCamera v (stopCamera v s).1).1 = (stopCamera v s).1 ∧
    (s.streamRef ≠ none → (stopCamera v s).1.isStreaming = false) ∧
    (∀ t ∈ (stopCamera v s).2, t.stopped = true ∧ t.enabled = false) := by
  cases h : s.streamRef with
  | none => simp [stopCamera, h]
  | some ts => cases v <;> simp [stopCamera, h, stopTrack]

/-- Witness for C7 at a concrete active session. -/
theorem stopCamera_props_witness :
    activeSessionState.streamRef ≠ none ∧
    (stopCamera true activeSessionState).1.isStreaming = false :=
  ⟨by decide,
   (stopCamera_props true activeSessionState).2.2.1 (by decide)⟩

/-- Claim C8: the convert-to-speech handler does not change any state;
it only produces a console line. -/
theorem convertToSpeech_frame (s : AppState) :
    (handleConvertToSpeech s).1 = s := rfl

/-- Claim C9: `clearConversions` empties the log and leaves the
streaming flag, the error, the copied-id mark and the dark-mode flag
untouched; in particular a copied mark can outlive its record. -/
theorem clearConversions_frame (s : AppState) :
    (clearConversions s).conversions = [] ∧
    (clearConversions s).isStreaming = s.isStreaming ∧
    (clearConversions s).error = s.error ∧
    (clearConversions s).copiedId = s.copiedId ∧
    (clearConversions s).isDarkMode = s.isDarkMode :=
  ⟨rfl, rfl, rfl, rfl, rfl⟩

/-- Claim C10: toggling dark mode twice restores the dark-mode flag. -/
theorem toggleDarkMode_involutive (s : AppState) :
    (toggleDarkMode (toggleDarkMode s)).isDarkMode = s.isDarkMode := by
  simp [toggleDarkMode]

/-- Counterexample to claim C2 as stated: on an insecure host (plain
transport, non-loopback), an invocation of `startCamera` still reaches
the `getUserMedia` call, so device acquisition IS attempted; only the
mount effect surfaces the error. -/
theorem startCamera_attempts_in_insecure_env :
    isInsecure { prefersDark := false, protocol := "http:", hostname := "example.com" } = true ∧
    (startCamera (.failure false "") true
      (mountEffect { prefersDark := false, protocol := "http:", hostname := "example.com" }
        initialState)).2 = true :=
  ⟨by decide, rfl⟩

/-- Claim C2 amended: in an insecure environment the mount effect stores
a fixed non-empty error message, while `startCamera` itself performs no
secure-context check and always reaches the acquisition call; its
failures are then caught and surfaced. -/
theorem insecure_env_error_surfaced (env : Env) (s : AppState)
    (h : isInsecure env = true) :
    (mountEffect env s).error = some secureContextError ∧
    secureContextError ≠ "" ∧
    (∀ res v s2, (startCamera res v s2).2 = true) := by
  refine ⟨?_, by decide, ?_⟩
  · simp [mountEffect, h]
  · intro res v s2
    cases res <;> cases v <;> rfl

/-- Witness for the amended C2 at a concrete insecure environment. -/
theorem insecure_env_error_surfaced_witness :
    (mountEffect { prefersDark := true, protocol := "file:", hostname := "box" }
      initialState).error = some secureContextError :=
  (insecure_env_error_surfaced
    { prefersDark := true, protocol := "file:", hostname := "box" }
    initialState (by decide)).1

/-- Counterexample to claim C5 as stated: when acquisition rejects with
an `Error` whose `message` is the empty string, the stored error message
is that empty string, so it is not non-empty. -/
theorem failure_empty_message :
    ((startCamera (.failure true "") true initialState).1).error = some "" ∧
    "".length = 0 :=
  ⟨rfl, rfl⟩

/-- Claim C5 amended: when acquisition fails, streaming stays inactive
and an error message is stored; the message is non-empty provided the
thrown value either is not an `Error` (the non-empty fallback is used)
or is an `Error` with a non-empty `message`.  The failure is absorbed:
`startCamera` is a total function of the acquisition outcome. -/
theorem startCamera_failure_state (isErr : Bool) (msg : String) (v : Bool)
    (s : AppState) (hs : s.isStreaming = false) (hm : isErr = true → msg ≠ "") :
    ((startCamera (.failure isErr msg) v s).1).isStreaming = false ∧
    ∃ m, ((startCamera (.failure isErr msg) v s).1).error = some m ∧ m ≠ "" := by
  cases isErr with
  | false => exact ⟨hs, deniedMessage, rfl, by decide⟩
  | true => exact ⟨hs, msg, rfl, hm rfl⟩

/-- Witness for the amended C5 at a concrete failed acquisition. -/
theorem startCamera_failure_state_witness :
    ((startCamera (.failure true "Permission denied") true initialState).1).isStreaming = false ∧
    ∃ m, ((startCamera (.failure true "Permission denied") true initialState).1).error =
      some m ∧ m ≠ "" :=
  startCamera_failure_state true "Permission denied" true initialState rfl
    (fun _ => by decide)

/-- Unfolding lemma: running a sequence of convert-to-text clicks
prepends the new records in reverse event order. -/
theorem runConversions_conversions (events : List (Nat × String)) (s : AppState) :
    (runConversions events s).conversions =
      (events.map convRecord).reverse ++ s.conversions := by
  induction events generalizing s with
  | nil => simp [runConversions]
  | cons e es ih =>
      have hstep : runConversions (e :: es) s =
          runConversions es (handleConvertToText e.1 e.2 s) := rfl
      rw [hstep, ih]
      simp [handleConvertToText]

/-- Counterexample to claim C3 as stated: two convert-to-text clicks in
the same millisecond (same `Date.now()` reading) produce two records
with the same id, so the ids are not pairwise distinct. -/
theorem duplicate_ids_same_instant :
    ((runConversions [(0, "a"), (0, "b")] initialState).conversions.map
      ConversionRecord.id) = [0, 0] ∧
    ¬ ((runConversions [(0, "a"), (0, "b")] initialState).conversions.map
      ConversionRecord.id).Nodup :=
  ⟨rfl, by decide⟩

/-- Claim C3 amended: after N additions whose clock readings are
strictly increasing, the log has N records, is in reverse-chronological
order (ids strictly decreasing from the head), and its ids are pairwise
distinct. -/
theorem conversions_ordered_of_increasing_clock (events : List (Nat × String))
    (h : List.Chain' (· < ·) (events.map Prod.fst)) :
    ((runConversions events initialState).conversions).length = events.length ∧
    List.Chain' (fun a b => ConversionRecord.id b < ConversionRecord.id a)
      ((runConversions events initialState).conversions) ∧
    (((runConversions events initialState).conversions).map ConversionRecord.id).Nodup := by
  have hc := runConversions_conversions events initialState
  have hnil : initialState.conversions = [] := rfl
  rw [hnil, List.append_nil] at hc
  have hfst : List.Chain' (fun a b => a.1 < b.1) events := (List.chain'_map Prod.fst).mp h
  refine ⟨?_, ?_, ?_⟩
  · rw [hc]; simp
  · rw [hc, List.chain'_reverse]
    exact (List.chain'_map convRecord).mpr (hfst.imp (fun _ _ hab => hab))
  · rw [hc, List.map_reverse, List.nodup_reverse, List.map_map]
    have hpair : List.Pairwise (· < ·) (events.map Prod.fst) :=
      List.chain'_iff_pairwise.mp h
    have : List.Pairwise (fun a b => a.1 < b.1) events := by
      rw [List.pairwise_map] at hpair; exact hpair
    have hlt : List.Pairwise (· < ·) (events.map (ConversionRecord.id ∘ convRecord)) := by
      rw [List.pairwise_map]; exact this
    exact hlt.nodup

/-- Witness for the amended C3 at two clicks with increasing clock. -/
theorem conversions_ordered_witness :
    ((runConversions [(1, "a"), (2, "b")] initialState).conversions).length =
      ([(1, "a"), (2, "b")] : List (Nat × String)).length ∧
    List.Chain' (fun a b => ConversionRecord.id b < ConversionRecord.id a)
      ((runConversions [(1, "a"), (2, "b")] initialState).conversions) ∧
    (((runConversions [(1, "a"), (2, "b")] initialState).conversions).map
      ConversionRecord.id).Nodup :=
  conversions_ordered_of_increasing_clock [(1, "a"), (2, "b")]
    (by simp [List.chain'_cons])

/-- A log already holding a record whose id is 5, for the freshness
counterexample. -/
def logWithId5 : AppState :=
  { initialState with conversions := [{ id := 5, text := "x", timestamp := "t0" }] }

/-- Counterexample to claim C6 as stated: adding a record at a clock
reading equal to an existing record id yields a head id that is not
fresh — it duplicates the stored one. -/
theorem addRecord_id_not_fresh :
    ((handleConvertToText 5 "t1" logWithId5).conversions.map ConversionRecord.id) =
      [5, 5] ∧
    ¬ ((handleConvertToText 5 "t1" logWithId5).conversions.map
      ConversionRecord.id).Nodup :=
  ⟨rfl, by decide⟩

/-- Claim C6 amended: `handleConvertToText` inserts the newly built
record at the head, keeping every previously stored record unchanged in
relative order; its id is fresh provided the clock reading exceeds every
stored id (as it does whenever the clock advanced strictly). -/
theorem addRecord_head_insert (now : Nat) (ts : String) (s : AppState)
    (h : ∀ r ∈ s.conversions, r.id < now) :
    (handleConvertToText now ts s).conversions = convRecord (now, ts) :: s.conversions ∧
    (handleConvertToText now ts s).conversions.head? = some (convRecord (now, ts)) ∧
    (∀ r ∈ s.conversions, r.id ≠ (convRecord (now, ts)).id) :=
  ⟨rfl, rfl, fun r hr => Nat.ne_of_lt (h r hr)⟩

/-- Witness for the amended C6: adding at a later clock reading to a
log holding one record. -/
theorem addRecord_head_insert_witness :
    (handleConvertToText 9 "t1" logWithId5).conversions =
      convRecord (9, "t1") :: logWithId5.conversions ∧
    (handleConvertToText 9 "t1" logWithId5).conversions.head? =
      some (convRecord (9, "t1")) ∧
    (∀ r ∈ logWithId5.conversions, r.id ≠ (convRecord (9, "t1")).id) :=
  addRecord_head_insert 9 "t1" logWithId5 (by decide)

/-- Counterexample to claim C4 as stated: copy id 1 at time 0, copy id 2
at time 1.  At time 1 the mark is id 2, but at time 2 the timeout
scheduled by the first copy fires and clears the mark, although the
second mark's 2-unit window should last until time 3; the mark of the
record copied during the earlier window does not last 2 time units. -/
theorem stale_timer_clears_later_mark :
    markAt [(0, 1), (1, 2)] 1 = some 2 ∧
    markAt [(0, 1), (1, 2)] 2 = none ∧
    2 < 1 + 2 := by decide

/-- Claim C4 amended: after a single successful copy with no other copy
during its window, the mark is exactly that id for the 2 time units
starting at the copy and is cleared from then on; an earlier copy's
pending timeout can clear a later mark before its window elapses. -/
theorem single_copy_mark_window (t id u : Nat) (_h : t ≤ u) :
    markAt [(t, id)] u = if u < t + 2 then some id else none := by
  have hrun : runCopies [(t, id)] = { copiedId := some id, timers := [t + 2] } := by
    simp [runCopies, copyToClipboard, fireDue]
  rw [markAt, hrun]
  by_cases h2 : t + 2 ≤ u
  · simp [fireDue, h2, Nat.not_lt.mpr h2]
  · simp [fireDue, h2, Nat.lt_of_not_le h2]

/-- Witness for the amended C4: a copy at time 3 observed at time 4. -/
theorem single_copy_mark_window_witness :
    markAt [(3, 7)] 4 = if 4 < 3 + 2 then some 7 else none :=
  single_copy_mark_window 3 7 4 (by decide)

end SignApp
